import Mathlib

/-!
Verification of the calendar-date engine of `src/utils.py` (module `utils` of the
`hfim` repository).

Embedding conventions:

* A calendar day is represented by its proleptic-Gregorian day number (`Int`,
  epoch 1970-01-01 = day 0), the standard civil-calendar encoding.  The
  conversion functions `daysFromCivil`/`civilFromDays` are the usual exact
  integer algorithms for the Gregorian calendar.  A `pd.Timestamp` that carries
  a time of day is represented as a tick count (`Int`, `nsPerDay` ticks per
  day), so `normalize()` is flooring to a day boundary.  The nanosecond
  range limit of `pd.Timestamp` (years 1677-2262) is abstracted away: dates
  are modelled as unbounded calendar days, as in the spec's data model.
* `pd.Timestamp(year=y, month=m, day=d)` raises for an invalid month or day;
  constructors and the functions built on them therefore return `Option`,
  with `none` marking the raising executions.
* Weekday numbering follows python: Monday = 0 .. Sunday = 6.
-/

/-- Gregorian leap-year test. -/
def isLeap (y : Int) : Bool := y % 4 = 0 ∧ (y % 100 ≠ 0 ∨ y % 400 = 0)

/-- Number of days of month `m` of year `y` (for `m ∈ [1,12]`). -/
def daysInMonth (y m : Int) : Int :=
  if m = 2 then (if isLeap y then 29 else 28)
  else if m = 4 ∨ m = 6 ∨ m = 9 ∨ m = 11 then 30 else 31

/-- Day number of the civil date `(y, m, d)` (proleptic Gregorian, epoch
1970-01-01).  Exact integer computus of the civil calendar. -/
def daysFromCivil (y m d : Int) : Int :=
  let y2 := if m ≤ 2 then y - 1 else y
  let era := y2 / 400
  let yoe := y2 - era * 400
  let mp := if m ≤ 2 then m + 9 else m - 3
  let doy := (153 * mp + 2) / 5 + d - 1
  let doe := yoe * 365 + yoe / 4 - yoe / 100 + doy
  era * 146097 + doe - 719468

/-- Civil date `(y, m, d)` of a day number: the inverse of `daysFromCivil`. -/
def civilFromDays (n : Int) : Int × Int × Int :=
  let z := n + 719468
  let era := z / 146097
  let doe := z - era * 146097
  let yoe := (doe - doe / 1460 + doe / 36524 - doe / 146096) / 365
  let y := yoe + era * 400
  let doy := doe - (365 * yoe + yoe / 4 - yoe / 100)
  let mp := (5 * doy + 2) / 153
  let d := doy - (153 * mp + 2) / 5 + 1
  let m := if mp < 10 then mp + 3 else mp - 9
  (if m ≤ 2 then y + 1 else y, m, d)

/-- Year component of a day number. -/
def yearOf (n : Int) : Int := (civilFromDays n).1

/-- Month component of a day number. -/
def monthOf (n : Int) : Int := (civilFromDays n).2.1

/-- Day-of-month component of a day number. -/
def domOf (n : Int) : Int := (civilFromDays n).2.2

/-- Weekday of a day number, python convention (Monday = 0 .. Sunday = 6);
day 0 (1970-01-01) was a Thursday. -/
def weekday (n : Int) : Int := (n + 3) % 7

-- ---------------------------------------------------------------------------
-- Calendar foundation lemmas
-- ---------------------------------------------------------------------------

/-- Recovery of the year-of-era from a day-of-era, the core arithmetic fact
behind `civilFromDays`. -/
theorem yoe_recover (yoe doy : Int) (h0 : 0 ≤ yoe) (h1 : yoe ≤ 399)
    (h2 : 0 ≤ doy) (h3 : doy ≤ 365)
    (h4 : doy = 365 → (yoe + 1) % 4 = 0 ∧ ((yoe + 1) % 100 ≠ 0 ∨ yoe = 399)) :
    (yoe * 365 + yoe / 4 - yoe / 100 + doy
        - (yoe * 365 + yoe / 4 - yoe / 100 + doy) / 1460
        + (yoe * 365 + yoe / 4 - yoe / 100 + doy) / 36524
        - (yoe * 365 + yoe / 4 - yoe / 100 + doy) / 146096) / 365
      = yoe := by
  have hA : (yoe * 365 + yoe / 4 - yoe / 100 + doy) / 1460 =
      yoe / 4 + (365 * (yoe % 4) + (yoe / 4 - yoe / 100) + doy) / 1460 := by omega
  have hA2 : (365 * (yoe % 4) + (yoe / 4 - yoe / 100) + doy) / 1460 = 0 ∨
      ((365 * (yoe % 4) + (yoe / 4 - yoe / 100) + doy) / 1460 = 1 ∧
        365 * (yoe % 4) + (yoe / 4 - yoe / 100) + doy ≥ 1460) := by omega
  have hB : (yoe * 365 + yoe / 4 - yoe / 100 + doy) / 36524 =
      yoe / 100 + (365 * (yoe % 100) + (yoe % 100) / 4 + doy) / 36524 := by omega
  have hB2 : (365 * (yoe % 100) + (yoe % 100) / 4 + doy) / 36524 = 0 ∨
      ((365 * (yoe % 100) + (yoe % 100) / 4 + doy) / 36524 = 1 ∧
        yoe % 100 = 99 ∧ doy = 365) := by omega
  have hC : (yoe * 365 + yoe / 4 - yoe / 100 + doy) / 146096 = 0 ∨
      ((yoe * 365 + yoe / 4 - yoe / 100 + doy) / 146096 = 1 ∧
        yoe = 399 ∧ doy = 365) := by omega
  rcases hA2 with hA2 | hA2 <;> rcases hB2 with hB2 | hB2 <;> rcases hC with hC | hC <;>
    omega

/-- Behaviour of `civilFromDays` on a day number given in era / year-of-era /
day-of-year decomposed form. -/
theorem civilFromDays_spec (n era yoe mp d : Int)
    (hn : n = era * 146097
        + (yoe * 365 + yoe / 4 - yoe / 100 + ((153 * mp + 2) / 5 + d - 1))
        - 719468)
    (hy0 : 0 ≤ yoe) (hy1 : yoe ≤ 399)
    (hmp0 : 0 ≤ mp) (hmp1 : mp ≤ 11)
    (hrec : (5 * ((153 * mp + 2) / 5 + d - 1) + 2) / 153 = mp)
    (hdoy0 : 0 ≤ (153 * mp + 2) / 5 + d - 1)
    (hdoy1 : (153 * mp + 2) / 5 + d - 1 ≤ 365)
    (hleap : (153 * mp + 2) / 5 + d - 1 = 365 →
      (yoe + 1) % 4 = 0 ∧ ((yoe + 1) % 100 ≠ 0 ∨ yoe = 399)) :
    civilFromDays n
      = (if (if mp < 10 then mp + 3 else mp - 9) ≤ 2
            then era * 400 + yoe + 1 else era * 400 + yoe,
         if mp < 10 then mp + 3 else mp - 9, d) := by
  have hyoe := yoe_recover yoe ((153 * mp + 2) / 5 + d - 1) hy0 hy1 hdoy0 hdoy1 hleap
  have hdoe0 : 0 ≤ yoe * 365 + yoe / 4 - yoe / 100 + ((153 * mp + 2) / 5 + d - 1) := by
    omega
  have hdoe1 :
      yoe * 365 + yoe / 4 - yoe / 100 + ((153 * mp + 2) / 5 + d - 1) ≤ 146096 := by
    omega
  subst hn
  simp only [civilFromDays]
  rw [show era * 146097 + (yoe * 365 + yoe / 4 - yoe / 100 + ((153 * mp + 2) / 5 + d - 1))
        - 719468 + 719468
      = era * 146097 + (yoe * 365 + yoe / 4 - yoe / 100 + ((153 * mp + 2) / 5 + d - 1))
      from by ring]
  rw [show (era * 146097 + (yoe * 365 + yoe / 4 - yoe / 100 + ((153 * mp + 2) / 5 + d - 1)))
        / 146097 = era from by omega]
  rw [show era * 146097 + (yoe * 365 + yoe / 4 - yoe / 100 + ((153 * mp + 2) / 5 + d - 1))
        - era * 146097
      = yoe * 365 + yoe / 4 - yoe / 100 + ((153 * mp + 2) / 5 + d - 1) from by ring]
  rw [hyoe]
  rw [show yoe * 365 + yoe / 4 - yoe / 100 + ((153 * mp + 2) / 5 + d - 1)
        - (365 * yoe + yoe / 4 - yoe / 100)
      = (153 * mp + 2) / 5 + d - 1 from by ring]
  rw [hrec]
  simp only [Prod.mk.injEq]
  refine ⟨?_, ?_, ?_⟩
  · split_ifs <;> omega
  · trivial
  · omega

/-- The civil-date conversion round-trips on every valid calendar date. -/
theorem civilFromDays_daysFromCivil (y m d : Int) (hm1 : 1 ≤ m) (hm2 : m ≤ 12)
    (hd1 : 1 ≤ d) (hd2 : d ≤ daysInMonth y m) :
    civilFromDays (daysFromCivil y m d) = (y, m, d) := by
  simp only [daysInMonth, isLeap, decide_eq_true_eq] at hd2
  rcases le_or_lt m 2 with hm | hm
  · -- January and February: shifted year y - 1, shifted month m + 9
    have hd31 : d ≤ 31 := by split_ifs at hd2 <;> omega
    have h := civilFromDays_spec (daysFromCivil y m d) ((y - 1) / 400) ((y - 1) % 400)
      (m + 9) d
      (by simp only [daysFromCivil, if_pos hm]; omega)
      (by omega) (by omega) (by omega) (by omega)
      (by omega)
      (by omega) (by omega)
      (by intro hdoy
          have hm2' : m = 2 ∧ d = 29 := by omega
          have hleapy : y % 4 = 0 ∧ (y % 100 ≠ 0 ∨ y % 400 = 0) := by
            split_ifs at hd2 <;> omega
          constructor <;> omega)
    rw [h, Prod.mk.injEq, Prod.mk.injEq]
    refine ⟨?_, ?_, rfl⟩ <;> split_ifs <;> omega
  · -- March to December: shifted month m - 3
    rw [if_neg (by omega)] at hd2
    have h := civilFromDays_spec (daysFromCivil y m d) (y / 400) (y % 400)
      (m - 3) d
      (by simp only [daysFromCivil, if_neg (show ¬ m ≤ 2 from by omega)]; omega)
      (by omega) (by omega) (by omega) (by omega)
      (by split_ifs at hd2 <;>
            rcases (show m = 3 ∨ m = 4 ∨ m = 5 ∨ m = 6 ∨ m = 7 ∨ m = 8 ∨ m = 9 ∨
                m = 10 ∨ m = 11 ∨ m = 12 from by omega) with
              rfl | rfl | rfl | rfl | rfl | rfl | rfl | rfl | rfl | rfl <;>
            omega)
      (by omega)
      (by split_ifs at hd2 <;> omega)
      (by intro hdoy; exfalso; split_ifs at hd2 <;> omega)
    rw [h, Prod.mk.injEq, Prod.mk.injEq]
    refine ⟨?_, ?_, rfl⟩ <;> split_ifs <;> omega

/-- `daysFromCivil` is affine in the day-of-month argument. -/
theorem daysFromCivil_day_shift (y m d : Int) :
    daysFromCivil y m d = daysFromCivil y m 1 + (d - 1) := by
  simp only [daysFromCivil]
  split_ifs <;> omega

set_option maxHeartbeats 1600000 in
/-- The day after the last day of a month is the first day of the next
month (wrapping December into January of the next year). -/
theorem daysFromCivil_succMonth (y m : Int) (hm1 : 1 ≤ m) (hm2 : m ≤ 12) :
    daysFromCivil y m (daysInMonth y m) + 1
      = if m = 12 then daysFromCivil (y + 1) 1 1 else daysFromCivil y (m + 1) 1 := by
  rcases eq_or_ne m 12 with rfl | hm12
  · rw [if_pos rfl]
    simp only [daysFromCivil, daysInMonth, isLeap, decide_eq_true_eq]
    norm_num
    omega
  · rw [if_neg hm12]
    rcases (show m = 1 ∨ m = 2 ∨ m = 3 ∨ m = 4 ∨ m = 5 ∨ m = 6 ∨ m = 7 ∨ m = 8 ∨
        m = 9 ∨ m = 10 ∨ m = 11 from by omega) with
      rfl | rfl | rfl | rfl | rfl | rfl | rfl | rfl | rfl | rfl | rfl <;>
    · simp only [daysFromCivil, daysInMonth, isLeap, decide_eq_true_eq]
      norm_num
      omega

/-- Every month has between 28 and 31 days. -/
theorem daysInMonth_bounds (y m : Int) :
    28 ≤ daysInMonth y m ∧ daysInMonth y m ≤ 31 := by
  simp only [daysInMonth]
  split_ifs <;> omega

-- ---------------------------------------------------------------------------
-- Model of the calendar functions of src/utils.py
-- ---------------------------------------------------------------------------

/-- Month and day of Western Easter for a year: the Gregorian computus of
`easter_date` in `src/utils.py`.  Python `//` and `%` are floor operations,
which coincide with `Int` `/` and `%` here because every divisor is
positive. -/
def easterMonthDay (year : Int) : Int × Int :=
  let a := year % 19
  let b := year / 100
  let c := year % 100
  let d := b / 4
  let e := b % 4
  let f := (b + 8) / 25
  let g := (b - f + 1) / 3
  let h := (19 * a + b - d - g + 15) % 30
  let i := c / 4
  let k := c % 4
  let l := (32 + 2 * e + 2 * i - h - k) % 7
  let m := (a + 11 * h + 22 * l) / 451
  ((h + l - 7 * m + 114) / 31, (h + l - 7 * m + 114) % 31 + 1)

/-- Day number of Western Easter Sunday (`easter_date` builds the
`pd.Timestamp` from the computed month and day). -/
def easter_date (year : Int) : Int :=
  daysFromCivil year (easterMonthDay year).1 (easterMonthDay year).2

/-- Day number of Good Friday: two days before Easter Sunday
(`good_friday` in `src/utils.py`). -/
def good_friday (year : Int) : Int := easter_date year - 2

/-- `pd.Timestamp(year=y, month=m, day=d)`: `some` day number when month
and day are valid, `none` for the raising executions. -/
def mkTimestamp (y m d : Int) : Option Int :=
  if 1 ≤ m ∧ m ≤ 12 ∧ 1 ≤ d ∧ d ≤ daysInMonth y m then some (daysFromCivil y m d)
  else none

/-- `third_friday` of `src/utils.py`: first day of the month, advanced to
the first Friday by `(4 - weekday) % 7` days, plus two weeks. -/
def third_friday (y m : Int) : Option Int :=
  (mkTimestamp y m 1).map (fun first => first + (4 - weekday first) % 7 + 14)

/-- `spx_monthly_expiration` of `src/utils.py`: the third Friday, moved to
the preceding Thursday when it is Good Friday.  Both compared dates are
midnight timestamps, so the `normalize()` calls of the source are the
identity and the comparison is plain day equality. -/
def spx_monthly_expiration (y m : Int) : Option Int :=
  (third_friday y m).map (fun tf => if tf = good_friday y then tf - 1 else tf)

/-- Following calendar month, wrapping December to January of the next
year — the `(y2, m2)` step used in `vix_monthly_settlement_for_month`,
`next_vix_monthly_settlement` and `next_two_vix_settlements`. -/
def nextMonth (y m : Int) : Int × Int :=
  if m = 12 then (y + 1, 1) else (y, m + 1)

/-- `vix_monthly_settlement_for_month` of `src/utils.py`: 30 calendar days
before the SPX monthly expiration of the following month. -/
def vix_monthly_settlement_for_month (y m : Int) : Option Int :=
  (spx_monthly_expiration (nextMonth y m).1 (nextMonth y m).2).map (fun s => s - 30)

/-- `next_vix_monthly_settlement` of `src/utils.py` on a reference calendar
day `(y, m, d)` (the source reads `ts.year`, `ts.month` and compares
normalized timestamps, so only the calendar day of `ts` matters). -/
def next_vix_monthly_settlement (y m d : Int) : Option Int :=
  (vix_monthly_settlement_for_month y m).bind (fun cand =>
    if daysFromCivil y m d > cand then
      vix_monthly_settlement_for_month (nextMonth y m).1 (nextMonth y m).2
    else some cand)

/-- `next_two_vix_settlements` of `src/utils.py` on a reference calendar
day `(y, m, d)`. -/
def next_two_vix_settlements (y m d : Int) : Option (Int × Int) :=
  (vix_monthly_settlement_for_month y m).bind (fun first0 =>
    if daysFromCivil y m d > first0 then
      (vix_monthly_settlement_for_month (nextMonth y m).1 (nextMonth y m).2).bind
        (fun first =>
          (vix_monthly_settlement_for_month
              (nextMonth (nextMonth y m).1 (nextMonth y m).2).1
              (nextMonth (nextMonth y m).1 (nextMonth y m).2).2).map
            (fun second => (first, second)))
    else
      (vix_monthly_settlement_for_month (nextMonth y m).1 (nextMonth y m).2).map
        (fun second => (first0, second)))

-- ---------------------------------------------------------------------------
-- Day-level (total) variants, used by the table-stamping layer, which only
-- ever evaluates the calendar functions on months produced by
-- `civilFromDays`, where `pd.Timestamp` construction never raises.
-- ---------------------------------------------------------------------------

/-- Body of `third_friday` as a total function on the day numbers. -/
def third_friday_day (y m : Int) : Int :=
  daysFromCivil y m 1 + (4 - weekday (daysFromCivil y m 1)) % 7 + 14

/-- Body of `spx_monthly_expiration` as a total function. -/
def spx_monthly_expiration_day (y m : Int) : Int :=
  if third_friday_day y m = good_friday y then third_friday_day y m - 1
  else third_friday_day y m

/-- Body of `vix_monthly_settlement_for_month` as a total function. -/
def vix_settlement_day (y m : Int) : Int :=
  spx_monthly_expiration_day (nextMonth y m).1 (nextMonth y m).2 - 30

/-- Body of `next_vix_monthly_settlement` as a total function of the
normalized reference day. -/
def next_vix_settlement_day (n : Int) : Int :=
  if n > vix_settlement_day (yearOf n) (monthOf n) then
    vix_settlement_day (nextMonth (yearOf n) (monthOf n)).1
      (nextMonth (yearOf n) (monthOf n)).2
  else vix_settlement_day (yearOf n) (monthOf n)

/-- Body of `next_two_vix_settlements` as a total function of the
normalized reference day. -/
def next_two_vix_settlements_day (n : Int) : Int × Int :=
  let y := yearOf n
  let m := monthOf n
  if n > vix_settlement_day y m then
    (vix_settlement_day (nextMonth y m).1 (nextMonth y m).2,
      vix_settlement_day (nextMonth (nextMonth y m).1 (nextMonth y m).2).1
        (nextMonth (nextMonth y m).1 (nextMonth y m).2).2)
  else
    (vix_settlement_day y m,
      vix_settlement_day (nextMonth y m).1 (nextMonth y m).2)

-- ---------------------------------------------------------------------------
-- Model of the dataframe layer of src/utils.py
-- ---------------------------------------------------------------------------

/-- Ticks per calendar day (`pd.Timestamp` counts nanoseconds). -/
def nsPerDay : Int := 86400000000000

/-- Calendar day of a tick timestamp. -/
def dayOfTS (t : Int) : Int := t / nsPerDay

/-- `Timestamp.normalize()`: midnight of the timestamp's calendar day. -/
def normalizeTS (t : Int) : Int := nsPerDay * (t / nsPerDay)

/-- A date-indexed table: the index (one tick timestamp per row) and the
columns, looked up by name; a column is a list of values, one per row
(dates are stored as tick values). -/
structure DataFrame where
  index : List Int
  cols : String → Option (List Int)

/-- Column assignment `df[name] = v`: overwrites the column when present,
introduces it otherwise. -/
def setCol (name : String) (v : List Int) (c : String → Option (List Int)) :
    String → Option (List Int) :=
  fun n => if n = name then some v else c n

/-- Date value stamped per row by `add_vix_next_expiration`: the next
settlement day as a (midnight) tick value. -/
def vixDateVal (t : Int) : Int := nsPerDay * next_vix_settlement_day (dayOfTS t)

/-- Floor day-count stamped per row: `(next - index.normalize()).dt.days`. -/
def vixFloorVal (t : Int) : Int :=
  (nsPerDay * next_vix_settlement_day (dayOfTS t) - normalizeTS t) / nsPerDay

/-- Ceil day-count stamped per row: `np.ceil((next - index) / 1 day)`. -/
def vixCeilVal (t : Int) : Int :=
  -((-(nsPerDay * next_vix_settlement_day (dayOfTS t) - t)) / nsPerDay)

/-- `add_vix_next_expiration` of `src/utils.py`.  Computes the floor and
ceil day-count columns and the settlement-date column, then drops every
column that is not among the initially present ones plus `col_name`
(the empty name falls back to `"next_vix_expiration_date"`, as in the
source's `col_name or ...`). -/
def add_vix_next_expiration (df : DataFrame) (col_name : String) : DataFrame :=
  let name2 := if col_name = "" then "next_vix_expiration_date" else col_name
  let c3 := setCol name2 (df.index.map vixDateVal)
    (setCol "days_to_next_vix_exp_ceil" (df.index.map vixCeilVal)
      (setCol "days_to_next_vix_exp" (df.index.map vixFloorVal) df.cols))
  ⟨df.index, fun n =>
    if (n = "days_to_next_vix_exp" ∨ n = "days_to_next_vix_exp_ceil")
        ∧ ¬ ((df.cols n).isSome ∨ n = name2) then none
    else c3 n⟩

/-- First settlement-date tick value stamped per row by
`add_days_to_next_two_expiries`. -/
def twoFirstVal (t : Int) : Int :=
  nsPerDay * (next_two_vix_settlements_day (dayOfTS t)).1

/-- Second settlement-date tick value stamped per row. -/
def twoSecondVal (t : Int) : Int :=
  nsPerDay * (next_two_vix_settlements_day (dayOfTS t)).2

/-- `(df["next_vix_exp"] - df.index).dt.days` per row. -/
def twoD1Val (t : Int) : Int :=
  (nsPerDay * (next_two_vix_settlements_day (dayOfTS t)).1 - t) / nsPerDay

/-- `(df["second_vix_exp"] - df.index).dt.days` per row. -/
def twoD2Val (t : Int) : Int :=
  (nsPerDay * (next_two_vix_settlements_day (dayOfTS t)).2 - t) / nsPerDay

/-- `days_to_second_exp - days_to_first_exp` per row. -/
def twoDurVal (t : Int) : Int := twoD2Val t - twoD1Val t

/-- `add_days_to_next_two_expiries` of `src/utils.py`: stamps the two next
settlement dates, the day counts to each, and their difference; the two
raw date columns are dropped again when `remove_dates` is set. -/
def add_days_to_next_two_expiries (df : DataFrame) (remove_dates : Bool) : DataFrame :=
  let c5 := setCol "duration_second_fut" (df.index.map twoDurVal)
    (setCol "days_to_second_exp" (df.index.map twoD2Val)
      (setCol "days_to_first_exp" (df.index.map twoD1Val)
        (setCol "second_vix_exp" (df.index.map twoSecondVal)
          (setCol "next_vix_exp" (df.index.map twoFirstVal) df.cols))))
  ⟨df.index, fun n =>
    if remove_dates ∧ (n = "next_vix_exp" ∨ n = "second_vix_exp") then none
    else c5 n⟩

-- ---------------------------------------------------------------------------
-- Derived lemmas about the calendar functions
-- ---------------------------------------------------------------------------

/-- The following month of a valid month is valid. -/
theorem nextMonth_valid (y m : Int) (hm1 : 1 ≤ m) (hm2 : m ≤ 12) :
    1 ≤ (nextMonth y m).2 ∧ (nextMonth y m).2 ≤ 12 := by
  rcases eq_or_ne m 12 with rfl | h12
  · simp [nextMonth]
  · simp only [nextMonth, if_neg h12]
    omega

/-- The first day of the following month is the day after the last day of
the current month. -/
theorem daysFromCivil_nextMonth (y m : Int) (hm1 : 1 ≤ m) (hm2 : m ≤ 12) :
    daysFromCivil (nextMonth y m).1 (nextMonth y m).2 1
      = daysFromCivil y m (daysInMonth y m) + 1 := by
  have h := daysFromCivil_succMonth y m hm1 hm2
  rcases eq_or_ne m 12 with rfl | h12
  · rw [show nextMonth y 12 = (y + 1, 1) from by simp [nextMonth]]
    rw [if_pos rfl] at h
    exact h.symm
  · rw [show nextMonth y m = (y, m + 1) from by simp [nextMonth, h12]]
    rw [if_neg h12] at h
    exact h.symm

/-- The third Friday falls on a Friday and on a day of month between 15
and 21. -/
theorem third_friday_day_dom (y m : Int) :
    ∃ dd, 15 ≤ dd ∧ dd ≤ 21 ∧ third_friday_day y m = daysFromCivil y m dd ∧
      weekday (third_friday_day y m) = 4 := by
  refine ⟨15 + (4 - weekday (daysFromCivil y m 1)) % 7, ?_, ?_, ?_, ?_⟩
  · simp only [weekday]; omega
  · simp only [weekday]; omega
  · rw [daysFromCivil_day_shift y m (15 + (4 - weekday (daysFromCivil y m 1)) % 7)]
    simp only [third_friday_day]
    omega
  · simp only [third_friday_day, weekday]
    omega

/-- The SPX monthly expiration falls on a day of month between 14 and 21. -/
theorem spx_day_dom (y m : Int) :
    ∃ dd, 14 ≤ dd ∧ dd ≤ 21 ∧
      spx_monthly_expiration_day y m = daysFromCivil y m dd := by
  obtain ⟨dd, h1, h2, h3, _⟩ := third_friday_day_dom y m
  simp only [spx_monthly_expiration_day]
  split_ifs with h
  · refine ⟨dd - 1, by omega, by omega, ?_⟩
    rw [h3, daysFromCivil_day_shift y m dd, daysFromCivil_day_shift y m (dd - 1)]
    omega
  · exact ⟨dd, by omega, h2, h3⟩

/-- The VIX settlement computed for a month falls inside that month. -/
theorem vix_settlement_day_dom (y m : Int) (hm1 : 1 ≤ m) (hm2 : m ≤ 12) :
    ∃ dd, 1 ≤ dd ∧ dd ≤ daysInMonth y m ∧
      vix_settlement_day y m = daysFromCivil y m dd := by
  obtain ⟨dd, h1, h2, h3⟩ := spx_day_dom (nextMonth y m).1 (nextMonth y m).2
  have hL := daysInMonth_bounds y m
  refine ⟨daysInMonth y m + dd - 30, by omega, by omega, ?_⟩
  simp only [vix_settlement_day]
  rw [h3, daysFromCivil_day_shift (nextMonth y m).1 (nextMonth y m).2 dd,
    daysFromCivil_nextMonth y m hm1 hm2,
    daysFromCivil_day_shift y m (daysInMonth y m),
    daysFromCivil_day_shift y m (daysInMonth y m + dd - 30)]
  omega

/-- The settlement of a month is not before the month's first day. -/
theorem vix_settlement_day_lb (y m : Int) (hm1 : 1 ≤ m) (hm2 : m ≤ 12) :
    daysFromCivil y m 1 ≤ vix_settlement_day y m := by
  obtain ⟨dd, h1, h2, h3⟩ := vix_settlement_day_dom y m hm1 hm2
  rw [h3, daysFromCivil_day_shift y m dd]
  omega

/-- The settlement of a month is not after the month's last day. -/
theorem vix_settlement_day_ub (y m : Int) (hm1 : 1 ≤ m) (hm2 : m ≤ 12) :
    vix_settlement_day y m ≤ daysFromCivil y m (daysInMonth y m) := by
  obtain ⟨dd, h1, h2, h3⟩ := vix_settlement_day_dom y m hm1 hm2
  rw [h3, daysFromCivil_day_shift y m dd, daysFromCivil_day_shift y m (daysInMonth y m)]
  omega

/-- Settlements of consecutive months are strictly increasing. -/
theorem vix_settlement_day_next_gt (y m : Int) (hm1 : 1 ≤ m) (hm2 : m ≤ 12) :
    vix_settlement_day y m < vix_settlement_day (nextMonth y m).1 (nextMonth y m).2 := by
  have h1 := vix_settlement_day_ub y m hm1 hm2
  have hnm := nextMonth_valid y m hm1 hm2
  have h2 := vix_settlement_day_lb (nextMonth y m).1 (nextMonth y m).2 hnm.1 hnm.2
  have h3 := daysFromCivil_nextMonth y m hm1 hm2
  omega

/-- For a valid month the `Option` version of `third_friday` succeeds and
agrees with the total body. -/
theorem third_friday_eq (y m : Int) (hm1 : 1 ≤ m) (hm2 : m ≤ 12) :
    third_friday y m = some (third_friday_day y m) := by
  have h1 := daysInMonth_bounds y m
  simp only [third_friday, mkTimestamp]
  rw [if_pos ⟨hm1, hm2, by omega, by omega⟩]
  rfl

/-- For a valid month `spx_monthly_expiration` succeeds and agrees with
the total body. -/
theorem spx_eq (y m : Int) (hm1 : 1 ≤ m) (hm2 : m ≤ 12) :
    spx_monthly_expiration y m = some (spx_monthly_expiration_day y m) := by
  simp only [spx_monthly_expiration, third_friday_eq y m hm1 hm2, Option.map_some']
  rfl

/-- For a valid month `vix_monthly_settlement_for_month` succeeds and
agrees with the total body. -/
theorem vix_eq (y m : Int) (hm1 : 1 ≤ m) (hm2 : m ≤ 12) :
    vix_monthly_settlement_for_month y m = some (vix_settlement_day y m) := by
  have hnm := nextMonth_valid y m hm1 hm2
  simp only [vix_monthly_settlement_for_month,
    spx_eq (nextMonth y m).1 (nextMonth y m).2 hnm.1 hnm.2, Option.map_some']
  rfl

-- ---------------------------------------------------------------------------
-- Dataframe layer lemmas
-- ---------------------------------------------------------------------------

/-- Two tables with the same index and the same columns are equal. -/
theorem dfEq (a b : DataFrame) (h1 : a.index = b.index)
    (h2 : ∀ n, a.cols n = b.cols n) : a = b := by
  cases a
  cases b
  simp only [DataFrame.mk.injEq]
  exact ⟨h1, funext h2⟩

/-- Column-level description of `add_vix_next_expiration`. -/
theorem add_vix_cols_char (df : DataFrame) (nm n : String) :
    (add_vix_next_expiration df nm).cols n =
      if (n = "days_to_next_vix_exp" ∨ n = "days_to_next_vix_exp_ceil")
          ∧ ¬ ((df.cols n).isSome
            ∨ n = (if nm = "" then "next_vix_expiration_date" else nm)) then none
      else if n = (if nm = "" then "next_vix_expiration_date" else nm) then
        some (df.index.map vixDateVal)
      else if n = "days_to_next_vix_exp_ceil" then some (df.index.map vixCeilVal)
      else if n = "days_to_next_vix_exp" then some (df.index.map vixFloorVal)
      else df.cols n := by
  simp only [add_vix_next_expiration, setCol]

/-- Column-level description of `add_days_to_next_two_expiries`. -/
theorem add_two_cols_char (df : DataFrame) (b : Bool) (n : String) :
    (add_days_to_next_two_expiries df b).cols n =
      if b ∧ (n = "next_vix_exp" ∨ n = "second_vix_exp") then none
      else if n = "duration_second_fut" then some (df.index.map twoDurVal)
      else if n = "days_to_second_exp" then some (df.index.map twoD2Val)
      else if n = "days_to_first_exp" then some (df.index.map twoD1Val)
      else if n = "second_vix_exp" then some (df.index.map twoSecondVal)
      else if n = "next_vix_exp" then some (df.index.map twoFirstVal)
      else df.cols n := by
  simp only [add_days_to_next_two_expiries, setCol]

/-- `add_vix_next_expiration` is idempotent. -/
theorem add_vix_idem (df : DataFrame) (nm : String) :
    add_vix_next_expiration (add_vix_next_expiration df nm) nm
      = add_vix_next_expiration df nm := by
  refine dfEq _ _ rfl ?_
  intro n
  have hidx : (add_vix_next_expiration df nm).index = df.index := rfl
  rw [add_vix_cols_char, add_vix_cols_char, hidx]
  by_cases hN : n = (if nm = "" then "next_vix_expiration_date" else nm) <;>
    by_cases hD : n = "days_to_next_vix_exp" <;>
    by_cases hC : n = "days_to_next_vix_exp_ceil" <;>
    by_cases hS : (df.cols n).isSome <;>
    simp_all

/-- `add_days_to_next_two_expiries` is idempotent. -/
theorem add_two_idem (df : DataFrame) (b : Bool) :
    add_days_to_next_two_expiries (add_days_to_next_two_expiries df b) b
      = add_days_to_next_two_expiries df b := by
  refine dfEq _ _ rfl ?_
  intro n
  have hidx : (add_days_to_next_two_expiries df b).index = df.index := rfl
  rw [add_two_cols_char, add_two_cols_char, hidx]
  cases b <;>
    by_cases h1 : n = "next_vix_exp" <;>
    by_cases h2 : n = "second_vix_exp" <;>
    by_cases h3 : n = "duration_second_fut" <;>
    by_cases h4 : n = "days_to_second_exp" <;>
    by_cases h5 : n = "days_to_first_exp" <;>
    simp_all

-- ---------------------------------------------------------------------------
-- Claim theorems
-- ---------------------------------------------------------------------------

/-- C1: for every reference calendar day `(y, m, d)`,
`next_vix_monthly_settlement` succeeds and returns a day on or after the
reference day; when the reference day is exactly the current month's
settlement day, that same day is returned (no roll to the next month). -/
theorem next_vix_settlement_ge (y m d : Int)
    (hm1 : 1 ≤ m) (hm2 : m ≤ 12) (hd1 : 1 ≤ d) (hd2 : d ≤ daysInMonth y m) :
    ∃ r, next_vix_monthly_settlement y m d = some r ∧ daysFromCivil y m d ≤ r ∧
      (vix_monthly_settlement_for_month y m = some (daysFromCivil y m d) →
        r = daysFromCivil y m d) := by
  have hveq := vix_eq y m hm1 hm2
  have hnm := nextMonth_valid y m hm1 hm2
  have hveq2 := vix_eq (nextMonth y m).1 (nextMonth y m).2 hnm.1 hnm.2
  simp only [next_vix_monthly_settlement, hveq, Option.some_bind']
  split_ifs with hroll
  · refine ⟨vix_settlement_day (nextMonth y m).1 (nextMonth y m).2, hveq2, ?_, ?_⟩
    · have h1 := vix_settlement_day_lb (nextMonth y m).1 (nextMonth y m).2 hnm.1 hnm.2
      have h2 := daysFromCivil_nextMonth y m hm1 hm2
      have h3 : daysFromCivil y m d ≤ daysFromCivil y m (daysInMonth y m) := by
        rw [daysFromCivil_day_shift y m d,
          daysFromCivil_day_shift y m (daysInMonth y m)]
        omega
      omega
    · intro hsome
      injection hsome with h4
      omega
  · refine ⟨vix_settlement_day y m, rfl, by omega, ?_⟩
    intro hsome
    exact Option.some.inj hsome

/-- C1 witness at the reference day 2024-03-15. -/
theorem next_vix_settlement_ge_witness :
    ∃ r, next_vix_monthly_settlement 2024 3 15 = some r ∧
      daysFromCivil 2024 3 15 ≤ r ∧
      (vix_monthly_settlement_for_month 2024 3 = some (daysFromCivil 2024 3 15) →
        r = daysFromCivil 2024 3 15) :=
  next_vix_settlement_ge 2024 3 15 (by decide) (by decide) (by decide) (by decide)

/-- C2: `next_two_vix_settlements` succeeds, its first component is exactly
`next_vix_monthly_settlement`, the second is strictly later, and the two
components are the settlements of two consecutive months (wrapping
December into January). -/
theorem next_two_vix_settlements_spec (y m d : Int)
    (hm1 : 1 ≤ m) (hm2 : m ≤ 12) (hd1 : 1 ≤ d) (hd2 : d ≤ daysInMonth y m) :
    ∃ p : Int × Int, next_two_vix_settlements y m d = some p ∧
      next_vix_monthly_settlement y m d = some p.1 ∧
      p.1 < p.2 ∧
      ∃ y2 m2, 1 ≤ m2 ∧ m2 ≤ 12 ∧
        vix_monthly_settlement_for_month y2 m2 = some p.1 ∧
        vix_monthly_settlement_for_month (nextMonth y2 m2).1 (nextMonth y2 m2).2
          = some p.2 := by
  have hveq := vix_eq y m hm1 hm2
  have hnm := nextMonth_valid y m hm1 hm2
  have hveq1 := vix_eq (nextMonth y m).1 (nextMonth y m).2 hnm.1 hnm.2
  have hnm2 := nextMonth_valid (nextMonth y m).1 (nextMonth y m).2 hnm.1 hnm.2
  have hveq2 := vix_eq (nextMonth (nextMonth y m).1 (nextMonth y m).2).1
    (nextMonth (nextMonth y m).1 (nextMonth y m).2).2 hnm2.1 hnm2.2
  have hgt1 := vix_settlement_day_next_gt y m hm1 hm2
  have hgt2 := vix_settlement_day_next_gt (nextMonth y m).1 (nextMonth y m).2
    hnm.1 hnm.2
  simp only [next_two_vix_settlements, next_vix_monthly_settlement, hveq,
    Option.some_bind']
  split_ifs with hroll
  · refine ⟨(vix_settlement_day (nextMonth y m).1 (nextMonth y m).2,
      vix_settlement_day (nextMonth (nextMonth y m).1 (nextMonth y m).2).1
        (nextMonth (nextMonth y m).1 (nextMonth y m).2).2), ?_, hveq1, hgt2,
      (nextMonth y m).1, (nextMonth y m).2, hnm.1, hnm.2, hveq1, hveq2⟩
    simp only [hveq1, hveq2, Option.some_bind', Option.map_some']
  · refine ⟨(vix_settlement_day y m,
      vix_settlement_day (nextMonth y m).1 (nextMonth y m).2), ?_, rfl, hgt1,
      y, m, hm1, hm2, hveq, hveq1⟩
    simp only [hveq1, Option.map_some']

/-- C2 witness at the reference day 2024-03-20. -/
theorem next_two_vix_settlements_spec_witness :
    ∃ p : Int × Int, next_two_vix_settlements 2024 3 20 = some p ∧
      next_vix_monthly_settlement 2024 3 20 = some p.1 ∧
      p.1 < p.2 ∧
      ∃ y2 m2, 1 ≤ m2 ∧ m2 ≤ 12 ∧
        vix_monthly_settlement_for_month y2 m2 = some p.1 ∧
        vix_monthly_settlement_for_month (nextMonth y2 m2).1 (nextMonth y2 m2).2
          = some p.2 :=
  next_two_vix_settlements_spec 2024 3 20 (by decide) (by decide) (by decide)
    (by decide)

/-- C10: for every valid month of a year at or after 1583, the settlement
computed by `vix_monthly_settlement_for_month` lies in that same calendar
month: its year and month components are the arguments. -/
theorem vix_settlement_in_month (y m : Int) (hy : 1583 ≤ y)
    (hm1 : 1 ≤ m) (hm2 : m ≤ 12) :
    ∃ v, vix_monthly_settlement_for_month y m = some v ∧
      yearOf v = y ∧ monthOf v = m := by
  obtain ⟨dd, h1, h2, h3⟩ := vix_settlement_day_dom y m hm1 hm2
  refine ⟨vix_settlement_day y m, vix_eq y m hm1 hm2, ?_, ?_⟩
  · rw [h3, yearOf, civilFromDays_daysFromCivil y m dd hm1 hm2 h1 h2]
  · rw [h3, monthOf, civilFromDays_daysFromCivil y m dd hm1 hm2 h1 h2]

/-- C10 witness at March 2024. -/
theorem vix_settlement_in_month_witness :
    ∃ v, vix_monthly_settlement_for_month 2024 3 = some v ∧
      yearOf v = 2024 ∧ monthOf v = 3 :=
  vix_settlement_in_month 2024 3 (by decide) (by decide) (by decide)

/-- C6: for every valid month, `third_friday` succeeds, the returned date
falls on a Friday (weekday 4 with Monday = 0), and its day of month lies
between 15 and 21. -/
theorem third_friday_spec (y m : Int) (hm1 : 1 ≤ m) (hm2 : m ≤ 12) :
    ∃ tf, third_friday y m = some tf ∧ weekday tf = 4 ∧
      15 ≤ domOf tf ∧ domOf tf ≤ 21 := by
  obtain ⟨dd, h1, h2, h3, h4⟩ := third_friday_day_dom y m
  have hL := daysInMonth_bounds y m
  have hrt := civilFromDays_daysFromCivil y m dd hm1 hm2 (by omega) (by omega)
  refine ⟨third_friday_day y m, third_friday_eq y m hm1 hm2, h4, ?_, ?_⟩
  · rw [h3, domOf, hrt]
    show (15:Int) ≤ dd
    omega
  · rw [h3, domOf, hrt]
    show dd ≤ (21:Int)
    omega

/-- C6 witness at March 2024 (third Friday 2024-03-15). -/
theorem third_friday_spec_witness :
    ∃ tf, third_friday 2024 3 = some tf ∧ weekday tf = 4 ∧
      15 ≤ domOf tf ∧ domOf tf ≤ 21 :=
  third_friday_spec 2024 3 (by decide) (by decide)

/-- C4: for every valid month, the SPX monthly expiration is the third
Friday, except that a third Friday equal to Good Friday (day-level
comparison) is moved one day back, to a Thursday (weekday 3). -/
theorem spx_monthly_expiration_spec (y m : Int) (hm1 : 1 ≤ m) (hm2 : m ≤ 12) :
    ∃ tf, third_friday y m = some tf ∧
      (tf ≠ good_friday y → spx_monthly_expiration y m = some tf) ∧
      (tf = good_friday y →
        spx_monthly_expiration y m = some (tf - 1) ∧ weekday (tf - 1) = 3) := by
  obtain ⟨dd, h1, h2, h3, h4⟩ := third_friday_day_dom y m
  refine ⟨third_friday_day y m, third_friday_eq y m hm1 hm2, ?_, ?_⟩
  · intro hne
    rw [spx_eq y m hm1 hm2]
    simp only [spx_monthly_expiration_day, if_neg hne]
  · intro heq
    refine ⟨?_, ?_⟩
    · rw [spx_eq y m hm1 hm2]
      simp only [spx_monthly_expiration_day, if_pos heq]
    · simp only [weekday] at h4 ⊢
      omega

/-- C4 witness at March 2024 (no Good Friday collision there). -/
theorem spx_monthly_expiration_spec_witness :
    ∃ tf, third_friday 2024 3 = some tf ∧
      (tf ≠ good_friday 2024 → spx_monthly_expiration 2024 3 = some tf) ∧
      (tf = good_friday 2024 →
        spx_monthly_expiration 2024 3 = some (tf - 1) ∧ weekday (tf - 1) = 3) :=
  spx_monthly_expiration_spec 2024 3 (by decide) (by decide)

/-- C5: for every valid month, the VIX settlement equals the SPX monthly
expiration of the following month minus 30 days, where the month after
`(y, 12)` is `(y + 1, 1)`. -/
theorem vix_settlement_follows_month (y m : Int) (hm1 : 1 ≤ m) (hm2 : m ≤ 12) :
    ∃ s, spx_monthly_expiration (nextMonth y m).1 (nextMonth y m).2 = some s ∧
      vix_monthly_settlement_for_month y m = some (s - 30) ∧
      (m = 12 → nextMonth y m = (y + 1, 1)) := by
  have hnm := nextMonth_valid y m hm1 hm2
  refine ⟨spx_monthly_expiration_day (nextMonth y m).1 (nextMonth y m).2,
    spx_eq (nextMonth y m).1 (nextMonth y m).2 hnm.1 hnm.2, ?_, ?_⟩
  · rw [vix_eq y m hm1 hm2]
    rfl
  · intro h12
    simp [nextMonth, h12]

/-- C5 witness at December 2024 (the wrapping month). -/
theorem vix_settlement_follows_month_witness :
    ∃ s, spx_monthly_expiration (nextMonth 2024 12).1 (nextMonth 2024 12).2 = some s ∧
      vix_monthly_settlement_for_month 2024 12 = some (s - 30) ∧
      (12 = (12:Int) → nextMonth 2024 12 = (2025, 1)) :=
  vix_settlement_follows_month 2024 12 (by decide) (by decide)

set_option maxHeartbeats 1000000 in
set_option maxRecDepth 10000 in
/-- Bounded verification of the Easter range for the years 2000 to 2100:
Easter Sunday falls between March 22 and April 25 of the given year. -/
theorem easter_range_key :
    ∀ z ∈ Finset.Icc (2000:Int) 2100,
      ((monthOf (easter_date z) = 3 ∧ 22 ≤ domOf (easter_date z)) ∨
        (monthOf (easter_date z) = 4 ∧ domOf (easter_date z) ≤ 25)) ∧
      yearOf (easter_date z) = z := by decide

/-- C3: for every year 2000-2100, Good Friday is exactly two days before
Easter Sunday, and Easter Sunday falls between March 22 and April 25
(inclusive) of that same year. -/
theorem easter_good_friday_range (y : Int) (h1 : 2000 ≤ y) (h2 : y ≤ 2100) :
    good_friday y = easter_date y - 2 ∧
      ((monthOf (easter_date y) = 3 ∧ 22 ≤ domOf (easter_date y)) ∨
        (monthOf (easter_date y) = 4 ∧ domOf (easter_date y) ≤ 25)) ∧
      yearOf (easter_date y) = y :=
  ⟨rfl, easter_range_key y (Finset.mem_Icc.mpr ⟨h1, h2⟩)⟩

/-- C3 witness at 2024 (Easter Sunday 2024-03-31). -/
theorem easter_good_friday_range_witness :
    good_friday 2024 = easter_date 2024 - 2 ∧
      ((monthOf (easter_date 2024) = 3 ∧ 22 ≤ domOf (easter_date 2024)) ∨
        (monthOf (easter_date 2024) = 4 ∧ domOf (easter_date 2024) ≤ 25)) ∧
      yearOf (easter_date 2024) = 2024 :=
  easter_good_friday_range 2024 (by decide) (by decide)

/-- C8 counterexample: `vix_monthly_settlement_for_month` does not reject
month 0 — it silently returns a date (the settlement that belongs to
December of the previous year, 2023-12-20 here), so the claim that all
three date functions fail fast on every month outside 1-12 is false. -/
theorem vix_settlement_month_zero_silent :
    vix_monthly_settlement_for_month 2024 0 = some (daysFromCivil 2023 12 20) := by
  decide

/-- C8 amended: `third_friday` and `spx_monthly_expiration` reject every
month outside 1-12, and `vix_monthly_settlement_for_month` rejects every
month outside 1-12 except month 0, for which it silently returns the date
`spx_monthly_expiration(y, 1) - 30 days` (the previous December's
settlement). -/
theorem month_validation (y m : Int) (hout : m < 1 ∨ 12 < m) :
    third_friday y m = none ∧ spx_monthly_expiration y m = none ∧
      (m ≠ 0 → vix_monthly_settlement_for_month y m = none) ∧
      (m = 0 → ∃ s, spx_monthly_expiration y 1 = some s ∧
        vix_monthly_settlement_for_month y m = some (s - 30)) := by
  have htf : third_friday y m = none := by
    simp only [third_friday, mkTimestamp]
    rw [if_neg (by omega)]
    rfl
  refine ⟨htf, ?_, ?_, ?_⟩
  · simp only [spx_monthly_expiration, htf]
    rfl
  · intro hm0
    have hm12 : m ≠ 12 := by omega
    have hnext : nextMonth y m = (y, m + 1) := by simp [nextMonth, hm12]
    simp only [vix_monthly_settlement_for_month, hnext, spx_monthly_expiration,
      third_friday, mkTimestamp]
    rw [if_neg (by omega)]
    rfl
  · intro hm0
    subst hm0
    have hnext : nextMonth y 0 = (y, 1) := by simp [nextMonth]
    refine ⟨spx_monthly_expiration_day y 1, spx_eq y 1 (by omega) (by omega), ?_⟩
    simp only [vix_monthly_settlement_for_month, hnext,
      spx_eq y 1 (by omega) (by omega), Option.map_some']

/-- C8 amended witness at month 0 of 2024. -/
theorem month_validation_witness :
    third_friday 2024 0 = none ∧ spx_monthly_expiration 2024 0 = none ∧
      ((0:Int) ≠ 0 → vix_monthly_settlement_for_month 2024 0 = none) ∧
      ((0:Int) = 0 → ∃ s, spx_monthly_expiration 2024 1 = some s ∧
        vix_monthly_settlement_for_month 2024 0 = some (s - 30)) :=
  month_validation 2024 0 (by decide)

/-- A one-row table with no columns, used as concrete input. -/
def exampleDf : DataFrame := ⟨[0], fun _ => none⟩

/-- C7 counterexample: on a concrete table, the two day-count columns
computed by `add_vix_next_expiration` are dropped before returning (only
the requested date column survives), contradicting the claim that all
three newly introduced columns persist. -/
theorem add_vix_daycounts_dropped :
    (add_vix_next_expiration exampleDf "x").cols "days_to_next_vix_exp" = none ∧
      (add_vix_next_expiration exampleDf "x").cols "days_to_next_vix_exp_ceil" = none ∧
      (add_vix_next_expiration exampleDf "x").cols "x"
        = some (exampleDf.index.map vixDateVal) := by
  refine ⟨?_, ?_, ?_⟩ <;> rw [add_vix_cols_char] <;> simp [exampleDf]

/-- C7 amended: `add_vix_next_expiration` keeps the index, stores the
next-settlement date under `col_name` (default name for the empty
string), recomputes the floor and ceil day-count columns but keeps them
only when they already existed in the input, and leaves every other
column unchanged.  The floor day count equals the whole-day difference
(zero on the settlement day itself), and the ceil day count agrees with
it on reference timestamps with no time component. -/
theorem add_vix_next_expiration_cols (df : DataFrame) (nm : String)
    (h1 : (if nm = "" then "next_vix_expiration_date" else nm)
      ≠ "days_to_next_vix_exp")
    (h2 : (if nm = "" then "next_vix_expiration_date" else nm)
      ≠ "days_to_next_vix_exp_ceil") :
    (add_vix_next_expiration df nm).index = df.index ∧
    (add_vix_next_expiration df nm).cols
        (if nm = "" then "next_vix_expiration_date" else nm)
      = some (df.index.map vixDateVal) ∧
    (add_vix_next_expiration df nm).cols "days_to_next_vix_exp"
      = (if (df.cols "days_to_next_vix_exp").isSome
          then some (df.index.map vixFloorVal) else none) ∧
    (add_vix_next_expiration df nm).cols "days_to_next_vix_exp_ceil"
      = (if (df.cols "days_to_next_vix_exp_ceil").isSome
          then some (df.index.map vixCeilVal) else none) ∧
    (∀ n, n ≠ (if nm = "" then "next_vix_expiration_date" else nm) →
      n ≠ "days_to_next_vix_exp" → n ≠ "days_to_next_vix_exp_ceil" →
      (add_vix_next_expiration df nm).cols n = df.cols n) ∧
    (∀ t : Int, vixFloorVal t = next_vix_settlement_day (dayOfTS t) - dayOfTS t) ∧
    (∀ t : Int, normalizeTS t = t →
      vixCeilVal t = next_vix_settlement_day (dayOfTS t) - dayOfTS t) := by
  refine ⟨rfl, ?_, ?_, ?_, ?_, ?_, ?_⟩
  · rw [add_vix_cols_char]
    simp [h1, h2]
  · rw [add_vix_cols_char]
    by_cases hS : (df.cols "days_to_next_vix_exp").isSome <;>
      simp [hS, Ne.symm h1]
  · rw [add_vix_cols_char]
    by_cases hS : (df.cols "days_to_next_vix_exp_ceil").isSome <;>
      simp [hS, Ne.symm h2]
  · intro n hn1 hn2 hn3
    rw [add_vix_cols_char]
    simp [hn1, hn2, hn3]
  · intro t
    simp only [vixFloorVal, normalizeTS, dayOfTS, nsPerDay]
    omega
  · intro t ht
    simp only [normalizeTS, nsPerDay] at ht
    simp only [vixCeilVal, dayOfTS, nsPerDay]
    omega

/-- C7 amended witness on the concrete one-row table. -/
theorem add_vix_next_expiration_cols_witness :
    (add_vix_next_expiration exampleDf "x").index = exampleDf.index ∧
    (add_vix_next_expiration exampleDf "x").cols
        (if "x" = "" then "next_vix_expiration_date" else "x")
      = some (exampleDf.index.map vixDateVal) ∧
    (add_vix_next_expiration exampleDf "x").cols "days_to_next_vix_exp"
      = (if (exampleDf.cols "days_to_next_vix_exp").isSome
          then some (exampleDf.index.map vixFloorVal) else none) ∧
    (add_vix_next_expiration exampleDf "x").cols "days_to_next_vix_exp_ceil"
      = (if (exampleDf.cols "days_to_next_vix_exp_ceil").isSome
          then some (exampleDf.index.map vixCeilVal) else none) ∧
    (∀ n, n ≠ (if "x" = "" then "next_vix_expiration_date" else "x") →
      n ≠ "days_to_next_vix_exp" → n ≠ "days_to_next_vix_exp_ceil" →
      (add_vix_next_expiration exampleDf "x").cols n = exampleDf.cols n) ∧
    (∀ t : Int, vixFloorVal t = next_vix_settlement_day (dayOfTS t) - dayOfTS t) ∧
    (∀ t : Int, normalizeTS t = t →
      vixCeilVal t = next_vix_settlement_day (dayOfTS t) - dayOfTS t) :=
  add_vix_next_expiration_cols exampleDf "x" (by decide) (by decide)

/-- C9: stamping a table twice with `add_vix_next_expiration` (same column
name) or with `add_days_to_next_two_expiries` (same flag) produces exactly
the same table as stamping it once. -/
theorem table_ops_idempotent (df : DataFrame) (nm : String) (b : Bool) :
    add_vix_next_expiration (add_vix_next_expiration df nm) nm
        = add_vix_next_expiration df nm ∧
      add_days_to_next_two_expiries (add_days_to_next_two_expiries df b) b
        = add_days_to_next_two_expiries df b :=
  ⟨add_vix_idem df nm, add_two_idem df b⟩
